import Mathlib

/-!
Shallow embedding of the gocat agent's multi-transport communication layer
(`agent/comms.go`, here `src/unnamed/part_000`) and of the beacon-processing
path of `src/agent/agent.go`, together with theorems settling the frozen
claims about them.

Conventions of the embedding:
* Go `map[string]string` / `map[string]interface{}` values are association
  lists (`List (String × _)`); Go map indexing is `lookupAssoc`, Go map
  assignment is `insertAssoc` (replace-or-append).
* Go errors are their message strings, carried in `Except String`.
* A Go runtime panic (out-of-range slice index, failed interface type
  assertion) is reified: `Option` for the slice index in channel rotation,
  and an explicit `GoResult.panics` constructor for beacon processing.
* The only network round trip in this layer is `Contact.C2RequirementsMet`
  (negotiation); functions return, besides their result, the list of
  `NetEvent`s (negotiation calls) they perform, so that "performs no
  network contact" is the statement that this list is empty.
-/

namespace Gocat

/-- Association-list lookup, modelling Go `m[k]` with `ok` flag (`none` = absent). -/
def lookupAssoc {α : Type} : List (String × α) → String → Option α
  | [], _ => none
  | (k, v) :: rest, key => if k == key then some v else lookupAssoc rest key

/-- Association-list insert, modelling Go map assignment `m[k] = v`
(replaces the binding if the key is present, appends otherwise). -/
def insertAssoc {α : Type} : List (String × α) → String → α → List (String × α)
  | [], key, v => [(key, v)]
  | (k, w) :: rest, key, v =>
    if k == key then (key, v) :: rest else (k, w) :: insertAssoc rest key v

/-- Agent profile: Go `map[string]interface{}`. Only negotiation consumes it and
only negotiation-returned modifications mutate it in this layer, so the values
are modelled as strings. -/
abbrev Profile := List (String × String)

/-- Negotiation config: Go `map[string]string` with keys c2Name, c2Key, address. -/
abbrev C2Config := List (String × String)

/-- A pluggable transport (the `contact.Contact` interface, external to this
layer): a stable name and the negotiation capability `C2RequirementsMet`.
The other capabilities (beacon fetch, result submission, payload fetch) are
not consumed by the channel-manager code under verification. -/
structure Contact where
  contactName : String
  c2RequirementsMet : Profile → C2Config → Bool × Option (List (String × String))

/-- A network event: one negotiation round trip, recording which contact was
invoked and with which config. -/
inductive NetEvent where
  | negotiate (contactName : String) (config : C2Config)
deriving DecidableEq

/-- The `AgentCommsChannel` struct: a bound (address, transport, key) triple
with its resolved contact (`none` models a nil `contact.Contact`) and the
validated flag. -/
structure AgentCommsChannel where
  address : String
  c2Protocol : String
  c2Key : String
  contactObj : Option Contact
  validated : Bool

/-- Modelled from the spec: `contact.GetContactByName` (transport registry
lookup, §6 "getTransportByName(name) -> Contact, error(UnknownTransport)") is
code of the repository outside src/; it looks the name up in the registry of
communication channels and fails with an unknown-transport error if absent. -/
def GetContactByName (creg : List (String × Contact)) (name : String) :
    Except String Contact :=
  match lookupAssoc creg name with
  | some c => .ok c
  | none => .error ("UnknownTransport: " ++ name)

/-- The `Initialize` method of `AgentCommsChannel`: binds the triple, clears
the validated flag and resolves the contact object from the transport
registry; fails if the protocol name is unknown. Does not attempt to check
C2 contact requirements (no network event). -/
def AgentCommsChannel.Initialize (creg : List (String × Contact))
    (address c2Protocol c2Key : String) : Except String AgentCommsChannel :=
  match GetContactByName creg c2Protocol with
  | .error e => .error e
  | .ok c =>
    .ok { address := address, c2Protocol := c2Protocol, c2Key := c2Key,
          contactObj := some c, validated := false }

/-- The `AgentCommsFactory` constructor: a fresh channel initialized via
`AgentCommsChannel.Initialize`, or the initialization error. -/
def AgentCommsFactory (creg : List (String × Contact))
    (address c2Protocol c2Key : String) : Except String AgentCommsChannel :=
  AgentCommsChannel.Initialize creg address c2Protocol c2Key

/-- The `GetConfig` method: the negotiation config map built from the channel. -/
def AgentCommsChannel.GetConfig (a : AgentCommsChannel) : C2Config :=
  [("c2Name", a.c2Protocol), ("c2Key", a.c2Key), ("address", a.address)]

/-- The `Validate` method: returns (false, nil) on a nil contact, otherwise
invokes the contact's `C2RequirementsMet` with the full profile and the
channel's config, stores the verdict in the validated flag and returns the
verdict with the profile modifications. The returned channel is the (pointer
receiver) mutated channel; the event list records the negotiation call. -/
def AgentCommsChannel.Validate (a : AgentCommsChannel) (profile : Profile) :
    (Bool × Option (List (String × String))) × AgentCommsChannel × List NetEvent :=
  match a.contactObj with
  | none => ((false, none), a, [])
  | some c =>
    let r := c.c2RequirementsMet profile a.GetConfig
    (r, { a with validated := r.1 }, [.negotiate c.contactName a.GetConfig])

/-- The `GetKey` method. -/
def AgentCommsChannel.GetKey (a : AgentCommsChannel) : String := a.c2Key

/-- The `GetContact` method. -/
def AgentCommsChannel.GetContact (a : AgentCommsChannel) : Option Contact :=
  a.contactObj

/-- The `GetAddress` method. -/
def AgentCommsChannel.GetAddress (a : AgentCommsChannel) : String := a.address

/-- The `GetProtocol` method. -/
def AgentCommsChannel.GetProtocol (a : AgentCommsChannel) : String := a.c2Protocol

/-- The `IsValidated` method. -/
def AgentCommsChannel.IsValidated (a : AgentCommsChannel) : Bool := a.validated

/-- The `GetIdentifier` method: `fmt.Sprintf("%s-%s", c2Protocol, address)`. -/
def AgentCommsChannel.GetIdentifier (a : AgentCommsChannel) : String :=
  a.c2Protocol ++ "-" ++ a.address

/-- A local peer-to-peer receiver. Modelled from the spec: the relay type is
outside src/; per §6 it exposes `updateUpstreamContact` / `updateUpstreamAddress`
which set its current upstream contact and address. -/
structure P2pReceiver where
  upstreamComs : Option Contact
  upstreamServer : String

/-- The agent state visible to this layer. The `Agent` struct's comms fields
(`agentComms`, `validatedCommsChannels`, `successfulCommsChannels`,
`successFulCommsChannelIndex`, `tryingSwitchedContact`, `localP2pReceivers`)
are those read and written by `src/unnamed/part_000`; the identity attributes
feeding `GetFullProfile` are collapsed into `profile` (§3 Agent Profile). -/
structure Agent where
  profile : Profile
  agentComms : AgentCommsChannel
  validatedCommsChannels : List (String × AgentCommsChannel)
  successfulCommsChannels : List AgentCommsChannel
  successFulCommsChannelIndex : Nat
  tryingSwitchedContact : Bool
  localP2pReceivers : List P2pReceiver

/-- The `GetFullProfile` method, at this layer: the agent's profile mapping. -/
def Agent.GetFullProfile (a : Agent) : Profile := a.profile

/-- The `getCurrentServerAddress` method. -/
def Agent.getCurrentServerAddress (a : Agent) : String := a.agentComms.address

/-- Modelled from the spec: `modifyAgentConfiguration` is code of the
repository outside src/; per §4.3-2 / §3 it applies the negotiation's profile
modifications to the Agent Profile, overwriting or adding attributes. -/
def Agent.modifyAgentConfiguration (a : Agent)
    (mods : List (String × String)) : Agent :=
  { a with profile := mods.foldl (fun p kv => insertAssoc p kv.1 kv.2) a.profile }

/-- The `addValidatedCommsChannel` method: inserts the channel into the
registry keyed by its identifier only if it is validated; otherwise only logs. -/
def Agent.addValidatedCommsChannel (a : Agent) (commsChannel : AgentCommsChannel) :
    Agent :=
  if commsChannel.IsValidated then
    { a with validatedCommsChannels :=
        insertAssoc a.validatedCommsChannels commsChannel.GetIdentifier commsChannel }
  else
    a

/-- The `GetCommunicationChannel` method: returns the registry entry for the
`protocol-server` identity when present (ignoring the key argument), otherwise
a fresh channel from `AgentCommsFactory` (or its error). Performs no network
contact and does not change the agent. -/
def Agent.GetCommunicationChannel (a : Agent) (creg : List (String × Contact))
    (server c2Protocol c2Key : String) : Except String AgentCommsChannel :=
  let commsChannelIdentifier := c2Protocol ++ "-" ++ server
  match lookupAssoc a.validatedCommsChannels commsChannelIdentifier with
  | none => AgentCommsFactory creg server c2Protocol c2Key
  | some commsChannel => .ok commsChannel

/-- The `setCommsChannel` method: register the validated channel, apply the
profile modifications when non-nil, make the channel active, and push the new
upstream contact and address to every local p2p receiver. -/
def Agent.setCommsChannel (a : Agent) (commsChannel : AgentCommsChannel)
    (profileModifications : Option (List (String × String))) : Agent :=
  let a1 := a.addValidatedCommsChannel commsChannel
  let a2 := match profileModifications with
    | none => a1
    | some mods => a1.modifyAgentConfiguration mods
  let a3 := { a2 with agentComms := commsChannel }
  { a3 with localP2pReceivers := a3.localP2pReceivers.map (fun _ =>
      { upstreamComs := commsChannel.GetContact,
        upstreamServer := commsChannel.GetAddress }) }

/-- The `validateAndSetCommsChannelObj` method: validate the channel against
the full profile; on success activate it via `setCommsChannel`, on failure
return the requirements-not-met error naming protocol and server address and
leave the agent unchanged. -/
def Agent.validateAndSetCommsChannelObj (a : Agent)
    (commsChannel : AgentCommsChannel) :
    Except String Unit × Agent × List NetEvent :=
  let v := commsChannel.Validate a.GetFullProfile
  let valid := v.1.1
  let profileModifications := v.1.2
  let mutated := v.2.1
  let events := v.2.2
  let c2Protocol := commsChannel.GetProtocol
  if valid then
    (.ok (), a.setCommsChannel mutated profileModifications, events)
  else
    (.error ("Requirements not met for C2 channel " ++ c2Protocol ++
      " for server " ++ commsChannel.GetAddress), a, events)

/-- The `ValidateAndSetCommsChannel` method: look up or construct the channel
for (protocol, server), then validate-and-activate it. -/
def Agent.ValidateAndSetCommsChannel (a : Agent) (creg : List (String × Contact))
    (server c2Protocol c2Key : String) :
    Except String Unit × Agent × List NetEvent :=
  match a.GetCommunicationChannel creg server c2Protocol c2Key with
  | .error e => (.error e, a, [])
  | .ok commsChannel => a.validateAndSetCommsChannelObj commsChannel

/-- The `setInitialCommsChannel` method: read the protocol from the c2 config
(error if the c2Name key is missing), default the key to empty, delegate. -/
def Agent.setInitialCommsChannel (a : Agent) (creg : List (String × Contact))
    (server : String) (c2Config : List (String × String)) :
    Except String Unit × Agent × List NetEvent :=
  match lookupAssoc c2Config "c2Name" with
  | none =>
    (.error "C2 config does not contain c2 protocol. Missing key: c2Name", a, [])
  | some c2Protocol =>
    let c2Key := (lookupAssoc c2Config "c2Key").getD ""
    a.ValidateAndSetCommsChannel creg server c2Protocol c2Key

/-- The `UpdateSuccessfulContacts` method: only when a contact switch is in
progress, scan the history for the active channel's identity; on a hit return
early (leaving the flag set), otherwise append the active channel to the
history and clear the flag. -/
def Agent.UpdateSuccessfulContacts (a : Agent) : Agent :=
  if a.tryingSwitchedContact then
    let identifier := a.agentComms.GetProtocol ++ "-" ++ a.getCurrentServerAddress
    if a.successfulCommsChannels.any (fun ch => ch.GetIdentifier == identifier) then
      a
    else
      { a with
        successfulCommsChannels := a.successfulCommsChannels ++ [a.agentComms],
        tryingSwitchedContact := false }
  else
    a

/-- The `switchToPreviousSuccessfulCommsChannel` method: error if the history
is empty; otherwise read the channel at the rotation cursor, advance the
cursor modulo the history length, and validate-and-activate the channel read.
`none` models the Go runtime panic on an out-of-range cursor (unreachable
from initial states, where the cursor stays below the history length). -/
def Agent.switchToPreviousSuccessfulCommsChannel (a : Agent) :
    Option (Except String Unit × Agent × List NetEvent) :=
  let numSuccessfulChannels := a.successfulCommsChannels.length
  if numSuccessfulChannels == 0 then
    some (.error "No previous successful channels to try.", a, [])
  else
    match a.successfulCommsChannels[a.successFulCommsChannelIndex]? with
    | none => none
    | some toTry =>
      let a1 := { a with successFulCommsChannelIndex :=
        (a.successFulCommsChannelIndex + 1) % numSuccessfulChannels }
      some (a1.validateAndSetCommsChannelObj toTry)

/-- The `SwitchC2Contact` method: keep the current server address; use the
new key when non-empty, else the active channel's key; delegate. -/
def Agent.SwitchC2Contact (a : Agent) (creg : List (String × Contact))
    (newContactName newKey : String) :
    Except String Unit × Agent × List NetEvent :=
  let keyToUse := if 0 < newKey.length then newKey else a.agentComms.GetKey
  a.ValidateAndSetCommsChannel creg a.getCurrentServerAddress newContactName keyToUse

/-! Beacon processing (src/agent/agent.go). -/

/-- A decoded Go JSON value as produced by `encoding/json` into
`interface{}`: nil, bool, number (`float64`; the claims involve only its
type, so it is carried as an integer), string, array, or object
(`map[string]interface{}`). -/
inductive JsonV where
  | null
  | bool (b : Bool)
  | num (x : Int)
  | str (s : String)
  | arr (xs : List JsonV)
  | obj (fields : List (String × JsonV))

/-- Outcome of running a piece of Go code: a value, or a runtime panic
(failed interface type assertion). -/
inductive GoResult (α : Type) where
  | ok (a : α)
  | panics (msg : String)
deriving DecidableEq

/-- The `processBeacon` function. `unmarshal` abstracts `json.Unmarshal`
(the encoding/json standard library, external to the repository): it returns
the decoded value of a byte string, or `none` on a decode error; decoding
into `map[string]interface{}` additionally fails when the top-level value is
not an object. The function mirrors agent.go exactly: on an outer decode
error it logs and returns the nil beacon; otherwise it evaluates
`beacon["instructions"].(string)` — an unchecked type assertion that panics
when the field is absent or not a string; on an inner decode error it logs
and returns the outer map unchanged; otherwise it evaluates
`int(beacon["sleep"].(float64))` and `int(beacon["watchdog"].(float64))` —
unchecked type assertions that panic when the field is absent or not a
number — and returns the map with sleep, watchdog and instructions rebound. -/
def processBeacon (unmarshal : String → Option JsonV) (data : String) :
    GoResult (Option (List (String × JsonV))) :=
  match unmarshal data with
  | some (.obj beacon) =>
    match lookupAssoc beacon "instructions" with
    | some (.str instrStr) =>
      match unmarshal instrStr with
      | none => .ok (some beacon)
      | some commands =>
        match lookupAssoc beacon "sleep" with
        | some (.num sleepVal) =>
          match lookupAssoc beacon "watchdog" with
          | some (.num watchdogVal) =>
            .ok (some (insertAssoc (insertAssoc (insertAssoc beacon
              "sleep" (.num sleepVal)) "watchdog" (.num watchdogVal))
              "instructions" commands))
          | _ => .panics "interface conversion: interface \x7b\x7d is not float64"
        | _ => .panics "interface conversion: interface \x7b\x7d is not float64"
    | _ => .panics "interface conversion: interface \x7b\x7d is not string"
  | _ => .ok none

/-! A step relation over the agent operations of this layer, used to state
invariants preserved by every operation sequence. -/

/-- One externally drivable operation of the channel manager. -/
inductive AgentOp where
  | setInitial (server : String) (c2Config : List (String × String))
  | validateAndSet (server c2Protocol c2Key : String)
  | switchContact (newContactName newKey : String)
  | rotate
  | recordSuccess

/-- Apply one operation to the agent; `none` models a Go runtime panic. -/
def applyOp (creg : List (String × Contact)) (a : Agent) : AgentOp → Option Agent
  | .setInitial server c2Config => some (a.setInitialCommsChannel creg server c2Config).2.1
  | .validateAndSet server c2Protocol c2Key =>
    some (a.ValidateAndSetCommsChannel creg server c2Protocol c2Key).2.1
  | .switchContact newContactName newKey =>
    some (a.SwitchC2Contact creg newContactName newKey).2.1
  | .rotate => (a.switchToPreviousSuccessfulCommsChannel).map (fun r => r.2.1)
  | .recordSuccess => some a.UpdateSuccessfulContacts

/-- Apply a sequence of operations left to right. -/
def runOps (creg : List (String × Contact)) (a : Agent) : List AgentOp → Option Agent
  | [] => some a
  | op :: rest =>
    match applyOp creg a op with
    | none => none
    | some a1 => runOps creg a1 rest

/-! Concrete fixtures used by witnesses and counterexamples. -/

/-- A contact whose negotiation always accepts and returns no modifications. -/
def acceptContact (n : String) : Contact :=
  { contactName := n, c2RequirementsMet := fun _ _ => (true, none) }

/-- A contact whose negotiation always rejects. -/
def rejectContact (n : String) : Contact :=
  { contactName := n, c2RequirementsMet := fun _ _ => (false, none) }

/-- A validated historical channel bound to a rejecting contact. -/
def rejChannel (n addr : String) : AgentCommsChannel :=
  { address := addr, c2Protocol := n, c2Key := "",
    contactObj := some (rejectContact n), validated := true }

/-- A baseline agent: active HTTP channel, empty registry and history. -/
def baseAgent : Agent :=
  { profile := [("paw", "p1")],
    agentComms :=
      { address := "http://c2:8888", c2Protocol := "HTTP", c2Key := "key0",
        contactObj := some (acceptContact "HTTP"), validated := true },
    validatedCommsChannels := [],
    successfulCommsChannels := [],
    successFulCommsChannelIndex := 0,
    tryingSwitchedContact := false,
    localP2pReceivers := [] }

/-- A not-yet-validated HTTP channel bound to an accepting contact. -/
def okChannelHTTP : AgentCommsChannel :=
  { address := "http://c2:8888", c2Protocol := "HTTP", c2Key := "key0",
    contactObj := some (acceptContact "HTTP"), validated := false }

/-- A previously validated DNS channel memoized with its original key. -/
def storedDNS : AgentCommsChannel :=
  { address := "http://c2:8888", c2Protocol := "DNS", c2Key := "origKey",
    contactObj := some (rejectContact "DNS"), validated := true }

/-- The base agent with `storedDNS` memoized in the channel registry. -/
def regAgent : Agent :=
  { baseAgent with validatedCommsChannels := [("DNS-http://c2:8888", storedDNS)] }

/-- The base agent amid a deliberate switch, its history still empty. -/
def freshSwitchAgent : Agent :=
  { baseAgent with tryingSwitchedContact := true }

/-- The base agent amid a deliberate switch whose active channel's identity
is already recorded in the success history. -/
def switchedDupAgent : Agent :=
  { baseAgent with
    tryingSwitchedContact := true,
    successfulCommsChannels := [baseAgent.agentComms] }

/-- The state reached from the base agent by one successful HTTP activation:
the validated channel is memoized and active. -/
def postActivationAgent : Agent :=
  { baseAgent with
    agentComms := { okChannelHTTP with validated := true },
    validatedCommsChannels :=
      [("HTTP-http://c2:8888", { okChannelHTTP with validated := true })] }

/-- An agent whose success history holds three distinct always-rejecting
channels, with the rotation cursor at the start. -/
def agentABC : Agent :=
  { baseAgent with successfulCommsChannels :=
      [rejChannel "HTTP" "a1", rejChannel "DNS" "a2", rejChannel "SMB" "a3"] }

/-- Drive `switchToPreviousSuccessfulCommsChannel` repeatedly (the
Beacon/Execution Loop's failover policy under persistent failure), collecting
the error messages of the failed activation attempts; `none` if any call
panics. -/
def rotateRun (a : Agent) : Nat → Option (List String × Agent)
  | 0 => some ([], a)
  | k + 1 =>
    match a.switchToPreviousSuccessfulCommsChannel with
    | none => none
    | some (r, a1, _) =>
      match rotateRun a1 k with
      | none => none
      | some p =>
        some ((match r with | .ok _ => [] | .error e => [e]) ++ p.1, p.2)

/-- Invariant of the Successful-Channel History: each channel identity occurs
at most once. -/
def HistNodup (a : Agent) : Prop :=
  (a.successfulCommsChannels.map AgentCommsChannel.GetIdentifier).Nodup

/-- Invariant of the Channel Registry: every stored channel has its validated
flag set. -/
def RegistryValidated (a : Agent) : Prop :=
  ∀ p ∈ a.validatedCommsChannels, p.2.validated = true

/-- Invariant of the rotation cursor: it is inside the success history, or
the history is empty and the cursor is zero (the reachable states of the
agent; under it the out-of-range panic branch of rotation is dead). -/
def CursorOk (a : Agent) : Prop :=
  (a.successfulCommsChannels.length = 0 ∧ a.successFulCommsChannelIndex = 0) ∨
    a.successFulCommsChannelIndex < a.successfulCommsChannels.length

/-- A concrete stand-in for encoding/json on the single document of this
test: the outer payload decodes to an object carrying numeric sleep and
watchdog but no instructions field; every other input is a decode error. -/
def jsonOracle : String → Option JsonV := fun s =>
  if s = "\x7b\"sleep\":300,\"watchdog\":0\x7d" then
    some (.obj [("sleep", .num 300), ("watchdog", .num 0)])
  else none

/-! Helper lemmas about the association-list operations and about which
state components each operation can touch. -/

theorem lookupAssoc_insertAssoc_self {α : Type} (l : List (String × α))
    (k : String) (v : α) : lookupAssoc (insertAssoc l k v) k = some v := by
  induction l with
  | nil => simp [insertAssoc, lookupAssoc]
  | cons hd tl ih =>
    by_cases h : hd.1 == k
    · simp [insertAssoc, h, lookupAssoc]
    · simp only [insertAssoc]
      rw [show (hd.1 == k) = false by simpa using h]
      simpa [lookupAssoc, show (hd.1 == k) = false by simpa using h] using ih

theorem mem_insertAssoc {α : Type} {l : List (String × α)} {k : String}
    {v : α} {q : String × α} (h : q ∈ insertAssoc l k v) :
    q ∈ l ∨ q = (k, v) := by
  induction l with
  | nil => simpa [insertAssoc] using h
  | cons hd tl ih =>
    by_cases hk : hd.1 == k
    · simp only [insertAssoc, hk, if_pos] at h
      rcases List.mem_cons.mp h with h1 | h1
      · right; exact h1
      · left; exact List.mem_cons_of_mem hd h1
    · simp only [insertAssoc, hk, if_neg, Bool.false_eq_true,
        not_false_iff] at h
      rcases List.mem_cons.mp h with h1 | h1
      · left; exact h1 ▸ List.mem_cons_self hd tl
      · rcases ih h1 with h2 | h2
        · left; exact List.mem_cons_of_mem hd h2
        · right; exact h2

theorem setCommsChannel_successfulCommsChannels (a : Agent)
    (ch : AgentCommsChannel) (mods : Option (List (String × String))) :
    (a.setCommsChannel ch mods).successfulCommsChannels =
      a.successfulCommsChannels := by
  unfold Agent.setCommsChannel Agent.addValidatedCommsChannel
    Agent.modifyAgentConfiguration
  cases mods <;> by_cases h : ch.IsValidated <;> simp [h]

theorem setCommsChannel_index (a : Agent) (ch : AgentCommsChannel)
    (mods : Option (List (String × String))) :
    (a.setCommsChannel ch mods).successFulCommsChannelIndex =
      a.successFulCommsChannelIndex := by
  unfold Agent.setCommsChannel Agent.addValidatedCommsChannel
    Agent.modifyAgentConfiguration
  cases mods <;> by_cases h : ch.IsValidated <;> simp [h]

theorem setCommsChannel_flag (a : Agent) (ch : AgentCommsChannel)
    (mods : Option (List (String × String))) :
    (a.setCommsChannel ch mods).tryingSwitchedContact =
      a.tryingSwitchedContact := by
  unfold Agent.setCommsChannel Agent.addValidatedCommsChannel
    Agent.modifyAgentConfiguration
  cases mods <;> by_cases h : ch.IsValidated <;> simp [h]

theorem validateAndSetCommsChannelObj_successfulCommsChannels (a : Agent)
    (ch : AgentCommsChannel) :
    ((a.validateAndSetCommsChannelObj ch).2.1).successfulCommsChannels =
      a.successfulCommsChannels := by
  unfold Agent.validateAndSetCommsChannelObj
  by_cases h : (ch.Validate a.GetFullProfile).1.1 <;>
    simp [h, setCommsChannel_successfulCommsChannels]

theorem validateAndSetCommsChannelObj_index (a : Agent)
    (ch : AgentCommsChannel) :
    ((a.validateAndSetCommsChannelObj ch).2.1).successFulCommsChannelIndex =
      a.successFulCommsChannelIndex := by
  unfold Agent.validateAndSetCommsChannelObj
  by_cases h : (ch.Validate a.GetFullProfile).1.1 <;>
    simp [h, setCommsChannel_index]

/-! Claim C5. -/

/-- C5: for every activation attempt whose negotiation is rejected,
`validateAndSetCommsChannelObj` returns the requirements-not-met error naming
the transport and the server address, and returns the agent state — active
channel, profile, channel registry and success history included — exactly as
it was (no partial switch). -/
theorem validate_reject_no_partial_switch (a : Agent) (ch : AgentCommsChannel)
    (h : (ch.Validate a.GetFullProfile).1.1 = false) :
    a.validateAndSetCommsChannelObj ch =
      (.error ("Requirements not met for C2 channel " ++ ch.GetProtocol ++
        " for server " ++ ch.GetAddress), a,
        (ch.Validate a.GetFullProfile).2.2) := by
  unfold Agent.validateAndSetCommsChannelObj
  simp [h]

/-- Witness for C5: a rejecting DNS channel leaves the concrete base agent
untouched and reports the requirements-not-met error. -/
theorem validate_reject_no_partial_switch_witness :
    baseAgent.validateAndSetCommsChannelObj (rejChannel "DNS" "http://c2:8888") =
      (.error "Requirements not met for C2 channel DNS for server http://c2:8888",
        baseAgent,
        [.negotiate "DNS"
          [("c2Name", "DNS"), ("c2Key", ""), ("address", "http://c2:8888")]]) :=
  validate_reject_no_partial_switch baseAgent (rejChannel "DNS" "http://c2:8888") rfl

/-! Claim C6. -/

/-- C6: for every activation attempt whose negotiation succeeds, the call
returns ok and the resulting state has the validated channel inserted in the
channel registry under its identity, the negotiation's profile modifications
applied to the profile when any are returned, the active channel replaced by
the new channel, and every local p2p receiver updated with the new upstream
contact and address. -/
theorem activation_effects (a : Agent) (ch : AgentCommsChannel)
    (h : (ch.Validate a.GetFullProfile).1.1 = true) :
    (a.validateAndSetCommsChannelObj ch).1 = .ok ()
    ∧ lookupAssoc ((a.validateAndSetCommsChannelObj ch).2.1).validatedCommsChannels
        ch.GetIdentifier = some (ch.Validate a.GetFullProfile).2.1
    ∧ ((a.validateAndSetCommsChannelObj ch).2.1).agentComms =
        (ch.Validate a.GetFullProfile).2.1
    ∧ ((a.validateAndSetCommsChannelObj ch).2.1).profile =
        (match (ch.Validate a.GetFullProfile).1.2 with
         | none => a.profile
         | some mods => mods.foldl (fun p kv => insertAssoc p kv.1 kv.2) a.profile)
    ∧ ((a.validateAndSetCommsChannelObj ch).2.1).localP2pReceivers =
        a.localP2pReceivers.map (fun _ =>
          { upstreamComs := ch.GetContact, upstreamServer := ch.GetAddress }) := by
  cases hco : ch.contactObj with
  | none =>
    exfalso
    simp [AgentCommsChannel.Validate, hco] at h
  | some c =>
    have hval : ch.Validate a.GetFullProfile =
        (c.c2RequirementsMet a.GetFullProfile ch.GetConfig,
         { ch with validated := (c.c2RequirementsMet a.GetFullProfile ch.GetConfig).1 },
         [.negotiate c.contactName ch.GetConfig]) := by
      simp [AgentCommsChannel.Validate, hco]
    rw [hval] at h
    simp only at h
    have hres : a.validateAndSetCommsChannelObj ch =
        (.ok (),
          a.setCommsChannel
            { address := ch.address, c2Protocol := ch.c2Protocol,
              c2Key := ch.c2Key, contactObj := ch.contactObj, validated := true }
            (c.c2RequirementsMet a.GetFullProfile ch.GetConfig).2,
          [.negotiate c.contactName ch.GetConfig]) := by
      simp [Agent.validateAndSetCommsChannelObj, hval, h]
    rw [hres, hval]
    refine ⟨rfl, ?_, ?_, ?_, ?_⟩ <;>
      cases hm : (c.c2RequirementsMet a.GetFullProfile ch.GetConfig).2 <;>
        simp [hm, h, Agent.setCommsChannel, Agent.addValidatedCommsChannel,
          AgentCommsChannel.IsValidated, AgentCommsChannel.GetIdentifier,
          Agent.modifyAgentConfiguration, AgentCommsChannel.GetContact,
          AgentCommsChannel.GetAddress, lookupAssoc_insertAssoc_self]

/-- Witness for C6: activating an accepting HTTP channel on the base agent
registers it, makes it active, leaves the profile alone (no modifications)
and touches the empty receiver list. -/
theorem activation_effects_witness :
    (baseAgent.validateAndSetCommsChannelObj okChannelHTTP).1 = .ok ()
    ∧ lookupAssoc ((baseAgent.validateAndSetCommsChannelObj okChannelHTTP).2.1).validatedCommsChannels
        "HTTP-http://c2:8888" = some { okChannelHTTP with validated := true }
    ∧ ((baseAgent.validateAndSetCommsChannelObj okChannelHTTP).2.1).agentComms =
        { okChannelHTTP with validated := true }
    ∧ ((baseAgent.validateAndSetCommsChannelObj okChannelHTTP).2.1).profile =
        [("paw", "p1")]
    ∧ ((baseAgent.validateAndSetCommsChannelObj okChannelHTTP).2.1).localP2pReceivers =
        [] :=
  activation_effects baseAgent okChannelHTTP rfl

/-! Claim C7. -/

/-- C7: for a transport name absent from the transport registry, channel
construction fails with the unknown-transport error, and (when the identity
is not memoized) `ValidateAndSetCommsChannel` returns that error with no
network event and with the agent — its channel registry included —
unchanged. -/
theorem unknown_transport_fails (a : Agent) (creg : List (String × Contact))
    (server c2Protocol c2Key : String)
    (hcreg : lookupAssoc creg c2Protocol = none)
    (hmiss : lookupAssoc a.validatedCommsChannels (c2Protocol ++ "-" ++ server) = none) :
    AgentCommsFactory creg server c2Protocol c2Key =
      .error ("UnknownTransport: " ++ c2Protocol)
    ∧ a.ValidateAndSetCommsChannel creg server c2Protocol c2Key =
        (.error ("UnknownTransport: " ++ c2Protocol), a, []) := by
  constructor
  · simp [AgentCommsFactory, AgentCommsChannel.Initialize, GetContactByName, hcreg]
  · simp [Agent.ValidateAndSetCommsChannel, Agent.GetCommunicationChannel, hmiss,
      AgentCommsFactory, AgentCommsChannel.Initialize, GetContactByName, hcreg]

/-- Witness for C7: requesting the unregistered TCP transport on the base
agent fails with the unknown-transport error and changes nothing. -/
theorem unknown_transport_fails_witness :
    AgentCommsFactory [("HTTP", acceptContact "HTTP")] "http://c2:8888" "TCP" "" =
      .error "UnknownTransport: TCP"
    ∧ baseAgent.ValidateAndSetCommsChannel [("HTTP", acceptContact "HTTP")]
        "http://c2:8888" "TCP" "" =
        (.error "UnknownTransport: TCP", baseAgent, []) :=
  unknown_transport_fails baseAgent [("HTTP", acceptContact "HTTP")]
    "http://c2:8888" "TCP" "" rfl rfl

/-! Claim C8. -/

/-- C8: switching transports delegates to validate-and-activate with the
current active channel's server address, and with the supplied key when it is
non-empty, else the active channel's key; moreover when the identity is not
memoized and the transport resolves, the freshly constructed channel is bound
to exactly that address and that key. -/
theorem switch_keeps_address_and_key (a : Agent) (creg : List (String × Contact))
    (newContactName newKey : String) :
    a.SwitchC2Contact creg newContactName newKey =
      a.ValidateAndSetCommsChannel creg a.agentComms.GetAddress newContactName
        (if 0 < newKey.length then newKey else a.agentComms.GetKey)
    ∧ (∀ c, lookupAssoc a.validatedCommsChannels
          (newContactName ++ "-" ++ a.agentComms.GetAddress) = none →
        lookupAssoc creg newContactName = some c →
        a.SwitchC2Contact creg newContactName newKey =
          a.validateAndSetCommsChannelObj
            { address := a.agentComms.GetAddress, c2Protocol := newContactName,
              c2Key := if 0 < newKey.length then newKey else a.agentComms.GetKey,
              contactObj := some c, validated := false }) := by
  constructor
  · rfl
  · intro c h1 h2
    have h1a : lookupAssoc a.validatedCommsChannels
        (newContactName ++ "-" ++ a.agentComms.address) = none := h1
    simp [Agent.SwitchC2Contact, Agent.ValidateAndSetCommsChannel,
      Agent.GetCommunicationChannel, Agent.getCurrentServerAddress,
      AgentCommsChannel.GetAddress, h1a, AgentCommsFactory,
      AgentCommsChannel.Initialize, GetContactByName, h2]

/-- Witness for C8: switching the base agent to DNS with an empty new key
builds a channel at the current address with the active channel's key. -/
theorem switch_keeps_address_and_key_witness :
    baseAgent.SwitchC2Contact [("DNS", rejectContact "DNS")] "DNS" "" =
      baseAgent.validateAndSetCommsChannelObj
        { address := "http://c2:8888", c2Protocol := "DNS", c2Key := "key0",
          contactObj := some (rejectContact "DNS"), validated := false } :=
  (switch_keeps_address_and_key baseAgent [("DNS", rejectContact "DNS")] "DNS" "").2
    (rejectContact "DNS") rfl rfl

/-! Claim C10. -/

/-- C10: a registry hit makes `GetCommunicationChannel` return the stored
channel unchanged for every supplied key, and a subsequent transport switch
to that memoized identity — whatever new non-empty key is supplied —
negotiates with the stored channel's config, whose c2Key entry is the stored
channel's original key. -/
theorem registry_hit_discards_key (a : Agent) (creg : List (String × Contact))
    (server c2Protocol : String) (ch0 : AgentCommsChannel)
    (hreg : lookupAssoc a.validatedCommsChannels
      (c2Protocol ++ "-" ++ server) = some ch0) :
    (∀ c2Key, a.GetCommunicationChannel creg server c2Protocol c2Key = .ok ch0)
    ∧ (∀ c newKey, ch0.contactObj = some c →
        server = a.agentComms.GetAddress →
        (a.SwitchC2Contact creg c2Protocol newKey).2.2 =
          [.negotiate c.contactName ch0.GetConfig])
    ∧ lookupAssoc ch0.GetConfig "c2Key" = some ch0.c2Key := by
  refine ⟨?_, ?_, ?_⟩
  · intro c2Key
    simp [Agent.GetCommunicationChannel, hreg]
  · intro c newKey hc hserver
    rw [hserver] at hreg
    have hrega : lookupAssoc a.validatedCommsChannels
        (c2Protocol ++ "-" ++ a.agentComms.address) = some ch0 := hreg
    by_cases hv : (c.c2RequirementsMet a.GetFullProfile ch0.GetConfig).1 = true <;>
      simp [Agent.SwitchC2Contact, Agent.ValidateAndSetCommsChannel,
        Agent.GetCommunicationChannel, Agent.getCurrentServerAddress,
        AgentCommsChannel.GetAddress, hrega,
        Agent.validateAndSetCommsChannelObj, AgentCommsChannel.Validate, hc, hv]
  · rfl

/-- Witness for C10: with channel DNS at the current address memoized under
key origKey, a switch supplying newKey still negotiates with origKey. -/
theorem registry_hit_discards_key_witness :
    (regAgent.SwitchC2Contact [] "DNS" "newKey").2.2 =
      [.negotiate "DNS"
        [("c2Name", "DNS"), ("c2Key", "origKey"), ("address", "http://c2:8888")]] :=
  (registry_hit_discards_key regAgent [] "http://c2:8888" "DNS" storedDNS rfl).2.1
    (rejectContact "DNS") "newKey" rfl rfl

/-! Claims C3 / C9: invariants over all operation sequences. -/

theorem ValidateAndSetCommsChannel_successfulCommsChannels (a : Agent)
    (creg : List (String × Contact)) (s p k : String) :
    ((a.ValidateAndSetCommsChannel creg s p k).2.1).successfulCommsChannels =
      a.successfulCommsChannels := by
  unfold Agent.ValidateAndSetCommsChannel
  cases hgc : a.GetCommunicationChannel creg s p k <;>
    simp [validateAndSetCommsChannelObj_successfulCommsChannels]

theorem setInitialCommsChannel_successfulCommsChannels (a : Agent)
    (creg : List (String × Contact)) (s : String)
    (cfg : List (String × String)) :
    ((a.setInitialCommsChannel creg s cfg).2.1).successfulCommsChannels =
      a.successfulCommsChannels := by
  unfold Agent.setInitialCommsChannel
  cases lookupAssoc cfg "c2Name" <;>
    simp [ValidateAndSetCommsChannel_successfulCommsChannels]

theorem SwitchC2Contact_successfulCommsChannels (a : Agent)
    (creg : List (String × Contact)) (n k : String) :
    ((a.SwitchC2Contact creg n k).2.1).successfulCommsChannels =
      a.successfulCommsChannels := by
  unfold Agent.SwitchC2Contact
  simp [ValidateAndSetCommsChannel_successfulCommsChannels]

theorem rotate_some_successfulCommsChannels (a : Agent)
    (r : Except String Unit × Agent × List NetEvent)
    (h : a.switchToPreviousSuccessfulCommsChannel = some r) :
    (r.2.1).successfulCommsChannels = a.successfulCommsChannels := by
  unfold Agent.switchToPreviousSuccessfulCommsChannel at h
  by_cases h0 : (a.successfulCommsChannels.length == 0) = true
  · rw [if_pos h0] at h
    simp only [Option.some.injEq] at h
    rw [← h]
  · rw [if_neg h0] at h
    cases htry : a.successfulCommsChannels[a.successFulCommsChannelIndex]? with
    | none => rw [htry] at h; cases h
    | some toTry =>
      rw [htry] at h
      simp only [Option.some.injEq] at h
      rw [← h]
      exact validateAndSetCommsChannelObj_successfulCommsChannels _ toTry

/-- recordSuccess is a no-op when no switch is in progress. -/
theorem UpdateSuccessfulContacts_noop (a : Agent)
    (h : a.tryingSwitchedContact = false) : a.UpdateSuccessfulContacts = a := by
  unfold Agent.UpdateSuccessfulContacts
  simp [h]

theorem iterate_UpdateSuccessfulContacts_noop (m : Nat) (a : Agent)
    (h : a.tryingSwitchedContact = false) :
    (Agent.UpdateSuccessfulContacts)^[m] a = a := by
  induction m with
  | zero => rfl
  | succ j ih => rw [Function.iterate_succ_apply, UpdateSuccessfulContacts_noop a h, ih]

theorem UpdateSuccessfulContacts_histNodup (a : Agent) (h : HistNodup a) :
    HistNodup a.UpdateSuccessfulContacts := by
  unfold HistNodup Agent.UpdateSuccessfulContacts at *
  by_cases hf : a.tryingSwitchedContact = true
  · by_cases hany : (a.successfulCommsChannels.any fun ch =>
        ch.GetIdentifier ==
          a.agentComms.GetProtocol ++ "-" ++ a.getCurrentServerAddress) = true
    · simp [hf, hany, h]
    · rw [Bool.not_eq_true] at hany
      simp only [hf, if_true, hany, Bool.false_eq_true, if_false]
      rw [List.map_append, List.nodup_append]
      refine ⟨h, by simp, ?_⟩
      intro x hx hxmem
      simp only [List.map_cons, List.map_nil, List.mem_singleton] at hxmem
      rw [hxmem] at hx
      rw [List.mem_map] at hx
      obtain ⟨ch, hch, hchid⟩ := hx
      rw [List.any_eq_false] at hany
      have hne := hany ch hch
      rw [Bool.not_eq_true, beq_eq_false_iff_ne] at hne
      exact hne hchid
  · simp [hf, h]

theorem UpdateSuccessfulContacts_validatedCommsChannels (a : Agent) :
    (a.UpdateSuccessfulContacts).validatedCommsChannels =
      a.validatedCommsChannels := by
  unfold Agent.UpdateSuccessfulContacts
  by_cases hf : a.tryingSwitchedContact = true
  · by_cases hany : (a.successfulCommsChannels.any fun ch =>
        ch.GetIdentifier ==
          a.agentComms.GetProtocol ++ "-" ++ a.getCurrentServerAddress) = true <;>
      simp [hf, hany]
  · simp [hf]

theorem addValidatedCommsChannel_registryValidated (a : Agent)
    (ch : AgentCommsChannel) (h : RegistryValidated a) :
    RegistryValidated (a.addValidatedCommsChannel ch) := by
  unfold RegistryValidated Agent.addValidatedCommsChannel at *
  by_cases hv : ch.IsValidated = true
  · simp only [hv, if_true]
    intro p hp
    rcases mem_insertAssoc hp with h1 | h1
    · exact h p h1
    · rw [h1]
      exact hv
  · simp only [hv, if_false]
    exact h

theorem registryValidated_of_eq {a b : Agent}
    (hab : a.validatedCommsChannels = b.validatedCommsChannels)
    (h : RegistryValidated b) : RegistryValidated a := by
  unfold RegistryValidated at *
  rw [hab]
  exact h

theorem setCommsChannel_validatedCommsChannels (a : Agent)
    (ch : AgentCommsChannel) (mods : Option (List (String × String))) :
    (a.setCommsChannel ch mods).validatedCommsChannels =
      (a.addValidatedCommsChannel ch).validatedCommsChannels := by
  unfold Agent.setCommsChannel Agent.modifyAgentConfiguration
  cases mods <;> simp

theorem validateAndSetCommsChannelObj_registryValidated (a : Agent)
    (ch : AgentCommsChannel) (h : RegistryValidated a) :
    RegistryValidated ((a.validateAndSetCommsChannelObj ch).2.1) := by
  unfold Agent.validateAndSetCommsChannelObj
  by_cases hv : (ch.Validate a.GetFullProfile).1.1 = true <;> simp [hv]
  · exact registryValidated_of_eq
      (setCommsChannel_validatedCommsChannels a _ _)
      (addValidatedCommsChannel_registryValidated a _ h)
  · exact h

theorem ValidateAndSetCommsChannel_registryValidated (a : Agent)
    (creg : List (String × Contact)) (s p k : String)
    (h : RegistryValidated a) :
    RegistryValidated ((a.ValidateAndSetCommsChannel creg s p k).2.1) := by
  unfold Agent.ValidateAndSetCommsChannel
  cases hgc : a.GetCommunicationChannel creg s p k with
  | error e => simpa using h
  | ok ch => simpa using validateAndSetCommsChannelObj_registryValidated a ch h

theorem rotate_some_registryValidated (a : Agent)
    (r : Except String Unit × Agent × List NetEvent)
    (hstep : a.switchToPreviousSuccessfulCommsChannel = some r)
    (h : RegistryValidated a) : RegistryValidated (r.2.1) := by
  unfold Agent.switchToPreviousSuccessfulCommsChannel at hstep
  by_cases h0 : (a.successfulCommsChannels.length == 0) = true
  · rw [if_pos h0] at hstep
    simp only [Option.some.injEq] at hstep
    rw [← hstep]
    exact h
  · rw [if_neg h0] at hstep
    cases htry : a.successfulCommsChannels[a.successFulCommsChannelIndex]? with
    | none => rw [htry] at hstep; cases hstep
    | some toTry =>
      rw [htry] at hstep
      simp only [Option.some.injEq] at hstep
      rw [← hstep]
      exact validateAndSetCommsChannelObj_registryValidated _ toTry h

theorem applyOp_histNodup (creg : List (String × Contact)) (a : Agent)
    (op : AgentOp) (a1 : Agent) (hstep : applyOp creg a op = some a1)
    (h : HistNodup a) : HistNodup a1 := by
  cases op with
  | setInitial s cfg =>
    simp only [applyOp, Option.some.injEq] at hstep
    rw [← hstep]
    unfold HistNodup
    rw [setInitialCommsChannel_successfulCommsChannels]
    exact h
  | validateAndSet s p k =>
    simp only [applyOp, Option.some.injEq] at hstep
    rw [← hstep]
    unfold HistNodup
    rw [ValidateAndSetCommsChannel_successfulCommsChannels]
    exact h
  | switchContact n k =>
    simp only [applyOp, Option.some.injEq] at hstep
    rw [← hstep]
    unfold HistNodup
    rw [SwitchC2Contact_successfulCommsChannels]
    exact h
  | rotate =>
    simp only [applyOp, Option.map_eq_some'] at hstep
    obtain ⟨r, hr, hr1⟩ := hstep
    rw [← hr1]
    unfold HistNodup
    rw [rotate_some_successfulCommsChannels a r hr]
    exact h
  | recordSuccess =>
    simp only [applyOp, Option.some.injEq] at hstep
    rw [← hstep]
    exact UpdateSuccessfulContacts_histNodup a h

theorem applyOp_registryValidated (creg : List (String × Contact)) (a : Agent)
    (op : AgentOp) (a1 : Agent) (hstep : applyOp creg a op = some a1)
    (h : RegistryValidated a) : RegistryValidated a1 := by
  cases op with
  | setInitial s cfg =>
    simp only [applyOp, Option.some.injEq] at hstep
    rw [← hstep]
    unfold Agent.setInitialCommsChannel
    cases lookupAssoc cfg "c2Name" with
    | none => simpa using h
    | some p => simpa using ValidateAndSetCommsChannel_registryValidated a creg s p _ h
  | validateAndSet s p k =>
    simp only [applyOp, Option.some.injEq] at hstep
    rw [← hstep]
    exact ValidateAndSetCommsChannel_registryValidated a creg s p k h
  | switchContact n k =>
    simp only [applyOp, Option.some.injEq] at hstep
    rw [← hstep]
    unfold Agent.SwitchC2Contact
    exact ValidateAndSetCommsChannel_registryValidated a creg _ n _ h
  | rotate =>
    simp only [applyOp, Option.map_eq_some'] at hstep
    obtain ⟨r, hr, hr1⟩ := hstep
    rw [← hr1]
    exact rotate_some_registryValidated a r hr h
  | recordSuccess =>
    simp only [applyOp, Option.some.injEq] at hstep
    rw [← hstep]
    exact registryValidated_of_eq (UpdateSuccessfulContacts_validatedCommsChannels a) h

theorem runOps_histNodup (creg : List (String × Contact)) (ops : List AgentOp) :
    ∀ a a1 : Agent, runOps creg a ops = some a1 → HistNodup a → HistNodup a1 := by
  induction ops with
  | nil =>
    intro a a1 hrun h
    simp only [runOps, Option.some.injEq] at hrun
    rw [← hrun]
    exact h
  | cons op rest ih =>
    intro a a1 hrun h
    unfold runOps at hrun
    cases hstep : applyOp creg a op with
    | none => rw [hstep] at hrun; cases hrun
    | some a2 =>
      rw [hstep] at hrun
      exact ih a2 a1 hrun (applyOp_histNodup creg a op a2 hstep h)

theorem runOps_registryValidated (creg : List (String × Contact))
    (ops : List AgentOp) :
    ∀ a a1 : Agent, runOps creg a ops = some a1 → RegistryValidated a →
      RegistryValidated a1 := by
  induction ops with
  | nil =>
    intro a a1 hrun h
    simp only [runOps, Option.some.injEq] at hrun
    rw [← hrun]
    exact h
  | cons op rest ih =>
    intro a a1 hrun h
    unfold runOps at hrun
    cases hstep : applyOp creg a op with
    | none => rw [hstep] at hrun; cases hrun
    | some a2 =>
      rw [hstep] at hrun
      exact ih a2 a1 hrun (applyOp_registryValidated creg a op a2 hstep h)

theorem ValidateAndSetCommsChannel_index (a : Agent)
    (creg : List (String × Contact)) (s p k : String) :
    ((a.ValidateAndSetCommsChannel creg s p k).2.1).successFulCommsChannelIndex =
      a.successFulCommsChannelIndex := by
  unfold Agent.ValidateAndSetCommsChannel
  cases hgc : a.GetCommunicationChannel creg s p k <;>
    simp [validateAndSetCommsChannelObj_index]

theorem setInitialCommsChannel_index (a : Agent)
    (creg : List (String × Contact)) (s : String)
    (cfg : List (String × String)) :
    ((a.setInitialCommsChannel creg s cfg).2.1).successFulCommsChannelIndex =
      a.successFulCommsChannelIndex := by
  unfold Agent.setInitialCommsChannel
  cases lookupAssoc cfg "c2Name" <;> simp [ValidateAndSetCommsChannel_index]

theorem SwitchC2Contact_index (a : Agent) (creg : List (String × Contact))
    (n k : String) :
    ((a.SwitchC2Contact creg n k).2.1).successFulCommsChannelIndex =
      a.successFulCommsChannelIndex := by
  unfold Agent.SwitchC2Contact
  simp [ValidateAndSetCommsChannel_index]

theorem UpdateSuccessfulContacts_cursorOk (a : Agent) (h : CursorOk a) :
    CursorOk a.UpdateSuccessfulContacts := by
  unfold Agent.UpdateSuccessfulContacts
  by_cases hf : a.tryingSwitchedContact = true
  · by_cases hany : (a.successfulCommsChannels.any fun ch =>
        ch.GetIdentifier ==
          a.agentComms.GetProtocol ++ "-" ++ a.getCurrentServerAddress) = true
    · simp [hf, hany, h]
    · rw [Bool.not_eq_true] at hany
      simp only [hf, if_true, hany, Bool.false_eq_true, if_false]
      unfold CursorOk at h ⊢
      simp only [List.length_append, List.length_cons, List.length_nil]
      rcases h with ⟨h0, hi⟩ | hlt
      · right
        omega
      · right
        omega
  · simp [hf, h]

theorem rotate_some_cursorOk (a : Agent)
    (r : Except String Unit × Agent × List NetEvent)
    (hstep : a.switchToPreviousSuccessfulCommsChannel = some r)
    (h : CursorOk a) : CursorOk r.2.1 := by
  unfold Agent.switchToPreviousSuccessfulCommsChannel at hstep
  by_cases h0 : (a.successfulCommsChannels.length == 0) = true
  · rw [if_pos h0] at hstep
    simp only [Option.some.injEq] at hstep
    rw [← hstep]
    exact h
  · rw [if_neg h0] at hstep
    cases htry : a.successfulCommsChannels[a.successFulCommsChannelIndex]? with
    | none => rw [htry] at hstep; cases hstep
    | some toTry =>
      rw [htry] at hstep
      simp only [Option.some.injEq] at hstep
      rw [← hstep]
      unfold CursorOk
      rw [validateAndSetCommsChannelObj_index,
        validateAndSetCommsChannelObj_successfulCommsChannels]
      right
      have hpos : 0 < a.successfulCommsChannels.length := by
        rcases Nat.eq_zero_or_pos a.successfulCommsChannels.length with hz | hp
        · rw [hz] at h0; simp at h0
        · exact hp
      simpa using Nat.mod_lt (a.successFulCommsChannelIndex + 1) hpos

theorem rotate_ne_none (a : Agent) (h : CursorOk a) :
    a.switchToPreviousSuccessfulCommsChannel ≠ none := by
  unfold Agent.switchToPreviousSuccessfulCommsChannel
  by_cases h0 : (a.successfulCommsChannels.length == 0) = true
  · simp [h0]
  · have hlt : a.successFulCommsChannelIndex < a.successfulCommsChannels.length := by
      rcases h with ⟨hz, _⟩ | hlt
      · exact absurd (by simp [hz]) h0
      · exact hlt
    rw [if_neg h0, List.getElem?_eq_getElem hlt]
    simp

theorem applyOp_cursorOk (creg : List (String × Contact)) (a : Agent)
    (op : AgentOp) (a1 : Agent) (hstep : applyOp creg a op = some a1)
    (h : CursorOk a) : CursorOk a1 := by
  cases op with
  | setInitial s cfg =>
    simp only [applyOp, Option.some.injEq] at hstep
    rw [← hstep]
    unfold CursorOk
    rw [setInitialCommsChannel_index, setInitialCommsChannel_successfulCommsChannels]
    exact h
  | validateAndSet s p k =>
    simp only [applyOp, Option.some.injEq] at hstep
    rw [← hstep]
    unfold CursorOk
    rw [ValidateAndSetCommsChannel_index, ValidateAndSetCommsChannel_successfulCommsChannels]
    exact h
  | switchContact n k =>
    simp only [applyOp, Option.some.injEq] at hstep
    rw [← hstep]
    unfold CursorOk
    rw [SwitchC2Contact_index, SwitchC2Contact_successfulCommsChannels]
    exact h
  | rotate =>
    simp only [applyOp, Option.map_eq_some'] at hstep
    obtain ⟨r, hr, hr1⟩ := hstep
    rw [← hr1]
    exact rotate_some_cursorOk a r hr h
  | recordSuccess =>
    simp only [applyOp, Option.some.injEq] at hstep
    rw [← hstep]
    exact UpdateSuccessfulContacts_cursorOk a h

theorem runOps_cursorOk (creg : List (String × Contact)) (ops : List AgentOp) :
    ∀ a a1 : Agent, runOps creg a ops = some a1 → CursorOk a → CursorOk a1 := by
  induction ops with
  | nil =>
    intro a a1 hrun h
    simp only [runOps, Option.some.injEq] at hrun
    rw [← hrun]
    exact h
  | cons op rest ih =>
    intro a a1 hrun h
    unfold runOps at hrun
    cases hstep : applyOp creg a op with
    | none => rw [hstep] at hrun; cases hrun
    | some a2 =>
      rw [hstep] at hrun
      exact ih a2 a1 hrun (applyOp_cursorOk creg a op a2 hstep h)

/-! Claim C1. -/

/-- A requirements-not-met message never coincides with the empty-history
rotation error, whatever the transport and address. -/
theorem reqMsg_ne_noHist (p addr : String) :
    "Requirements not met for C2 channel " ++ p ++ " for server " ++ addr ≠
      "No previous successful channels to try." := by
  intro hcontra
  have h2 : ("Requirements not met for C2 channel " ++ p ++ " for server " ++
      addr).data = "No previous successful channels to try.".data := by
    rw [hcontra]
  rw [String.data_append, String.data_append, String.data_append] at h2
  have h3 : "Requirements not met for C2 channel ".data =
      'R' :: "equirements not met for C2 channel ".data := rfl
  have h4 : "No previous successful channels to try.".data =
      'N' :: "o previous successful channels to try.".data := rfl
  rw [h3, h4, List.cons_append, List.cons_append, List.cons_append] at h2
  injection h2 with h5 _
  exact absurd h5 (by decide)

/-- Either outcome shape of validate-and-activate: ok, or the
requirements-not-met error for this channel. -/
theorem validateAndSetCommsChannelObj_fst (a : Agent) (ch : AgentCommsChannel) :
    (a.validateAndSetCommsChannelObj ch).1 = .ok () ∨
    (a.validateAndSetCommsChannelObj ch).1 =
      .error ("Requirements not met for C2 channel " ++ ch.GetProtocol ++
        " for server " ++ ch.GetAddress) := by
  unfold Agent.validateAndSetCommsChannelObj
  by_cases hv : (ch.Validate a.GetFullProfile).1.1 = true <;> simp [hv]

/-- C1: rotation fails with the no-historical-channels error exactly when the
success history is empty; on a non-empty history it validates-and-activates
the channel at the current rotation cursor after advancing the cursor by
exactly one modulo the history length, and validate-and-activate never moves
the cursor, so the advance happens whether the validation succeeds or fails;
concretely, on history [A, B, C] of always-rejecting channels six failing
activations attempt A, B, C, A, B, C and return the cursor to its start;
finally, the cursor-in-range invariant holds of every state reachable by
operation sequences, and under it rotation never reaches its out-of-range
panic branch. -/
theorem rotation_round_robin :
    (∀ a : Agent,
      (a.switchToPreviousSuccessfulCommsChannel =
          some (.error "No previous successful channels to try.", a, []) ↔
        a.successfulCommsChannels = []))
    ∧ (∀ a : Agent, ∀ toTry,
        a.successfulCommsChannels[a.successFulCommsChannelIndex]? = some toTry →
        a.switchToPreviousSuccessfulCommsChannel =
          some (({ a with successFulCommsChannelIndex :=
              (a.successFulCommsChannelIndex + 1) %
                a.successfulCommsChannels.length }).validateAndSetCommsChannelObj
            toTry))
    ∧ (∀ a : Agent, ∀ ch : AgentCommsChannel,
        ((a.validateAndSetCommsChannelObj ch).2.1).successFulCommsChannelIndex =
          a.successFulCommsChannelIndex)
    ∧ rotateRun agentABC 6 =
        some (["Requirements not met for C2 channel HTTP for server a1",
               "Requirements not met for C2 channel DNS for server a2",
               "Requirements not met for C2 channel SMB for server a3",
               "Requirements not met for C2 channel HTTP for server a1",
               "Requirements not met for C2 channel DNS for server a2",
               "Requirements not met for C2 channel SMB for server a3"],
              agentABC)
    ∧ (∀ a : Agent, CursorOk a → a.switchToPreviousSuccessfulCommsChannel ≠ none)
    ∧ (∀ creg : List (String × Contact), ∀ ops : List AgentOp, ∀ a a1 : Agent,
        CursorOk a → runOps creg a ops = some a1 → CursorOk a1) := by
  refine ⟨?_, ?_, ?_, ?_, ?_, ?_⟩
  · intro a
    constructor
    · intro hr
      by_contra hne
      have hn : a.successfulCommsChannels.length ≠ 0 := by
        simpa [List.length_eq_zero] using hne
      unfold Agent.switchToPreviousSuccessfulCommsChannel at hr
      rw [if_neg (by simpa using hn)] at hr
      cases htry : a.successfulCommsChannels[a.successFulCommsChannelIndex]? with
      | none => rw [htry] at hr; cases hr
      | some toTry =>
        rw [htry] at hr
        simp only [Option.some.injEq] at hr
        have hfst := congrArg (fun r => r.1) hr
        simp only at hfst
        rcases validateAndSetCommsChannelObj_fst
            { a with successFulCommsChannelIndex :=
              (a.successFulCommsChannelIndex + 1) %
                a.successfulCommsChannels.length } toTry with hok | herr
        · rw [hfst] at hok; cases hok
        · rw [hfst] at herr
          have := Except.error.inj herr
          exact reqMsg_ne_noHist toTry.GetProtocol toTry.GetAddress this.symm
    · intro ha
      unfold Agent.switchToPreviousSuccessfulCommsChannel
      simp [ha]
  · intro a toTry htry
    have hlt : a.successFulCommsChannelIndex < a.successfulCommsChannels.length := by
      by_contra hge
      rw [List.getElem?_eq_none (Nat.le_of_not_lt hge)] at htry
      cases htry
    have hn : (a.successfulCommsChannels.length == 0) = false := by
      have hne : a.successfulCommsChannels.length ≠ 0 := by omega
      simpa using hne
    simp only [Agent.switchToPreviousSuccessfulCommsChannel, hn,
      Bool.false_eq_true, if_false, htry]
  · intro a ch
    exact validateAndSetCommsChannelObj_index a ch
  · rfl
  · intro a h
    exact rotate_ne_none a h
  · intro creg ops a a1 h hrun
    exact runOps_cursorOk creg ops a a1 hrun h

/-- Witness for C1: on the concrete three-channel history with the cursor at
zero, rotation validates the first channel with the cursor advanced to one. -/
theorem rotation_round_robin_witness :
    agentABC.switchToPreviousSuccessfulCommsChannel =
      some (({ agentABC with
          successFulCommsChannelIndex := 1 }).validateAndSetCommsChannelObj
        (rejChannel "HTTP" "a1")) :=
  rotation_round_robin.2.1 agentABC (rejChannel "HTTP" "a1") rfl

/-- C3: recordSuccess is a no-op whenever the switching flag is clear; the
at-most-once-per-identity invariant of the success history is preserved by
every operation sequence; and after a deliberate switch (flag set, identity
not yet recorded) followed by one or more recordSuccess calls the active
channel's identity occurs exactly once in the history. -/
theorem recordSuccess_noop_and_history_dedup :
    (∀ a : Agent, a.tryingSwitchedContact = false → a.UpdateSuccessfulContacts = a)
    ∧ (∀ creg : List (String × Contact), ∀ ops : List AgentOp, ∀ a a1 : Agent,
        HistNodup a → runOps creg a ops = some a1 → HistNodup a1)
    ∧ (∀ a : Agent, a.tryingSwitchedContact = true →
        (a.successfulCommsChannels.map AgentCommsChannel.GetIdentifier).count
          a.agentComms.GetIdentifier = 0 →
        ∀ k : Nat, 1 ≤ k →
          (((Agent.UpdateSuccessfulContacts)^[k] a).successfulCommsChannels.map
            AgentCommsChannel.GetIdentifier).count a.agentComms.GetIdentifier = 1) := by
  refine ⟨UpdateSuccessfulContacts_noop, ?_, ?_⟩
  · intro creg ops a a1 h hrun
    exact runOps_histNodup creg ops a a1 hrun h
  · intro a hflag hcount k hk
    have hnot : a.agentComms.GetIdentifier ∉
        a.successfulCommsChannels.map AgentCommsChannel.GetIdentifier :=
      List.count_eq_zero.mp hcount
    have hany : (a.successfulCommsChannels.any fun ch =>
        ch.GetIdentifier ==
          a.agentComms.GetProtocol ++ "-" ++ a.getCurrentServerAddress) = false := by
      rw [List.any_eq_false]
      intro ch hch
      simp only [Bool.not_eq_true, beq_eq_false_iff_ne, ne_eq]
      intro heq
      exact hnot (List.mem_map.mpr ⟨ch, hch, heq⟩)
    have hstep : a.UpdateSuccessfulContacts =
        { a with
          successfulCommsChannels := a.successfulCommsChannels ++ [a.agentComms],
          tryingSwitchedContact := false } := by
      unfold Agent.UpdateSuccessfulContacts
      simp [hflag, hany]
    obtain ⟨j, rfl⟩ : ∃ j, k = j + 1 := ⟨k - 1, by omega⟩
    rw [Function.iterate_succ_apply, hstep,
      iterate_UpdateSuccessfulContacts_noop j _ rfl]
    simp [List.count_append, hcount]

/-- Witness for C3: a switch in progress on the base agent followed by two
recordSuccess calls leaves the active channel's identity exactly once in the
history. -/
theorem recordSuccess_noop_and_history_dedup_witness :
    (((Agent.UpdateSuccessfulContacts)^[2] freshSwitchAgent).successfulCommsChannels.map
      AgentCommsChannel.GetIdentifier).count "HTTP-http://c2:8888" = 1 :=
  recordSuccess_noop_and_history_dedup.2.2 freshSwitchAgent rfl rfl 2 (by decide)

/-! Claim C4. -/

/-- C4 counterexample: with the switching flag set and the active channel's
identity already present in the history, `UpdateSuccessfulContacts` returns
with the flag still set — the claim that the flag is always cleared fails. -/
theorem recordSuccess_flag_not_cleared :
    switchedDupAgent.tryingSwitchedContact = true ∧
    (switchedDupAgent.UpdateSuccessfulContacts).tryingSwitchedContact = true := by
  exact ⟨rfl, rfl⟩

/-- C4 (amended): when the switching flag is set, `UpdateSuccessfulContacts`
clears it exactly on the append path (identity not yet in the history); when
the identity is already present the call returns early and the whole state,
flag included, is unchanged. -/
theorem recordSuccess_flag_cleared_iff_fresh (a : Agent)
    (h : a.tryingSwitchedContact = true) :
    ((a.successfulCommsChannels.any fun ch =>
        ch.GetIdentifier == a.agentComms.GetIdentifier) = false →
      (a.UpdateSuccessfulContacts).tryingSwitchedContact = false)
    ∧ ((a.successfulCommsChannels.any fun ch =>
        ch.GetIdentifier == a.agentComms.GetIdentifier) = true →
      a.UpdateSuccessfulContacts = a) := by
  refine ⟨fun hany => ?_, fun hany => ?_⟩
  · have hany2 : (a.successfulCommsChannels.any fun ch =>
        ch.GetIdentifier ==
          a.agentComms.GetProtocol ++ "-" ++ a.getCurrentServerAddress) = false :=
      hany
    unfold Agent.UpdateSuccessfulContacts
    simp [h, hany2]
  · have hany2 : (a.successfulCommsChannels.any fun ch =>
        ch.GetIdentifier ==
          a.agentComms.GetProtocol ++ "-" ++ a.getCurrentServerAddress) = true :=
      hany
    unfold Agent.UpdateSuccessfulContacts
    simp [h, hany2]

/-- Witness for C4's amended statement: a fresh switch on the base agent
(empty history) has its flag cleared by one recordSuccess call. -/
theorem recordSuccess_flag_cleared_iff_fresh_witness :
    (freshSwitchAgent.UpdateSuccessfulContacts).tryingSwitchedContact = false :=
  (recordSuccess_flag_cleared_iff_fresh freshSwitchAgent rfl).1 rfl

/-! Claim C9. -/

/-- C9: an unvalidated channel is never inserted — adding a channel whose
validated flag is clear leaves the agent untouched — and the invariant that
every channel stored in the registry has its validated flag true is preserved
by every operation sequence. -/
theorem registry_only_validated :
    (∀ a : Agent, ∀ ch : AgentCommsChannel, ch.IsValidated = false →
        a.addValidatedCommsChannel ch = a)
    ∧ (∀ creg : List (String × Contact), ∀ ops : List AgentOp, ∀ a a1 : Agent,
        RegistryValidated a → runOps creg a ops = some a1 →
        RegistryValidated a1) := by
  constructor
  · intro a ch h
    unfold Agent.addValidatedCommsChannel
    simp [h]
  · intro creg ops a a1 h hrun
    exact runOps_registryValidated creg ops a a1 hrun h

/-- Witness for C9: skipping an unvalidated insert on the base agent, and the
registry invariant after a concrete successful activation. -/
theorem registry_only_validated_witness :
    baseAgent.addValidatedCommsChannel okChannelHTTP = baseAgent ∧
    RegistryValidated postActivationAgent :=
  ⟨registry_only_validated.1 baseAgent okChannelHTTP rfl,
   registry_only_validated.2 [("HTTP", acceptContact "HTTP")]
     [.validateAndSet "http://c2:8888" "HTTP" "key0"] baseAgent
     postActivationAgent (by simp [RegistryValidated, baseAgent]) rfl⟩

/-! Claim C2. -/

/-- C2 refuted on the code: a beacon payload whose outer JSON decodes to an
object with numeric sleep and watchdog but no instructions field drives
`processBeacon` into the unchecked `beacon["instructions"].(string)` type
assertion, a runtime panic — not a dead-beacon result. -/
theorem processBeacon_panics_on_missing_instructions :
    processBeacon jsonOracle "\x7b\"sleep\":300,\"watchdog\":0\x7d" =
      .panics "interface conversion: interface \x7b\x7d is not string" := by
  rfl


end Gocat
